import Mathlib

/-!
Verification of the Stripe payment-link generator (src/app.py) against its
natural-language specification.  The Python source is shallowly embedded:
Python numbers appearing in the price arithmetic are modelled exactly as
rationals (ℚ); Python dicts are insertion-ordered association lists in which
assignment to an existing key overwrites in place; the remote Stripe service
is an explicit state record threaded through the calls, with failure
injection fields standing for raised exceptions.
-/

namespace StripeLinkGen

/-- Python dict assignment `d[k] = v`: overwrite the first occurrence of the
key in place, otherwise append at the end (insertion order preserved). -/
def insertKV {α : Type} (k : String) (v : α) : List (String × α) → List (String × α)
  | [] => [(k, v)]
  | (k', v') :: rest => if k' = k then (k, v) :: rest else (k', v') :: insertKV k v rest

/-- First value bound to a key in an association list (Python dict lookup). -/
def getKV {α : Type} (k : String) : List (String × α) → Option α
  | [] => none
  | (k', v) :: rest => if k' = k then some v else getKV k rest

/-! ### Discount arithmetic (src/app.py lines 171 and 215) -/

/-- `final_price = prod_data['amount'] * (1 - (discount / 100))`, the
expression computed identically at src/app.py:171 and src/app.py:215.
The discount comes from a `number_input` with `min_value=0, max_value=100`,
hence a natural number. -/
def final_price (amount : ℚ) (discount : ℕ) : ℚ :=
  amount * (1 - (discount : ℚ) / 100)

/-- Spec-side contract of §4.3, written from the spec words
`result = base_amount * (1 - percent/100)`, for comparison with the
code-derived `final_price`. -/
def apply_discount_spec (base_amount : ℚ) (percent : ℕ) : ℚ :=
  base_amount * (1 - (percent : ℚ) / 100)

/-! ### Decimal formatting

`f"{x:.2f}"` in CPython renders the correctly-rounded 2-decimal form of the
value, resolving exact ties to the even last digit (round-half-even); this is
modelled on the exact rational value.  `f"{x}"`/`str(x)` on a float whose
value is a whole number of hundredths (every catalog amount is
`unit_amount/100`) renders its decimal expansion with trailing zeros removed
but at least one fractional digit. -/

/-- Round a rational to the nearest integer, ties to even
(CPython float-to-decimal rounding). -/
def roundHalfEven (q : ℚ) : ℤ :=
  if q - ⌊q⌋ < 1 / 2 then ⌊q⌋
  else if 1 / 2 < q - ⌊q⌋ then ⌊q⌋ + 1
  else if ⌊q⌋ % 2 = 0 then ⌊q⌋ else ⌊q⌋ + 1

/-- Render a non-negative number of hundredths with exactly two fractional
digits (`1234 ↦ "12.34"`, `5 ↦ "0.05"`). -/
def render2 (n : ℕ) : String :=
  toString (n / 100) ++ "." ++ (if n % 100 < 10 then "0" else "") ++ toString (n % 100)

/-- `f"{q:.2f}"` on a non-negative value: half-even rounding to hundredths,
rendered with exactly two fractional digits. -/
def formatF2 (q : ℚ) : String :=
  render2 (roundHalfEven (q * 100)).toNat

/-- Modelled from the spec: §4.3 recommends rounding "2 decimal places,
half-up"; this renders that rule, for comparison with the code's `formatF2`. -/
def formatHalfUp2 (q : ℚ) : String :=
  render2 (⌊q * 100 + 1 / 2⌋).toNat

/-- Render a non-negative number of hundredths the way `str` shows the float:
trailing fractional zeros dropped, at least one fractional digit kept. -/
def renderFloat (n : ℕ) : String :=
  if n % 100 = 0 then toString (n / 100) ++ ".0"
  else if n % 100 % 10 = 0 then toString (n / 100) ++ "." ++ toString (n % 100 / 10)
  else toString (n / 100) ++ "." ++ (if n % 100 < 10 then "0" else "") ++ toString (n % 100)

/-- `str` of a float holding a whole number of hundredths (every catalog
amount is such): decimal expansion with trailing zeros removed but at least
one fractional digit. -/
def floatStr (q : ℚ) : String :=
  renderFloat (⌊q * 100⌋).toNat

/-- Python `str.upper()` on one ASCII character. -/
def charUp (c : Char) : Char :=
  if 'a' ≤ c ∧ c ≤ 'z' then Char.ofNat (c.toNat - 32) else c

/-- Python `str.upper()` (src/app.py:63 applies it to an ASCII ISO-4217
currency code). -/
def strUpper (s : String) : String := String.mk (s.data.map charUp)

/-! ### Catalog normalization (src/app.py lines 56-90, `get_active_products`) -/

/-- A raw Stripe price record as read by the loop body: `unit_amount` may be
absent, the expanded product may lack a `name` attribute (deleted product),
`type` is the literal string field, and `recurring` (modelled by its
`interval`) may be null. -/
structure RawPrice where
  id : String
  unit_amount : Option ℕ
  currency : String
  product_name : Option String
  type : String
  recurring_interval : Option String
deriving Repr, DecidableEq

/-- A value of the `product_options` mapping built at src/app.py:80-86. -/
structure CatalogEntry where
  id : String
  amount : ℚ
  currency : String
  mode : String
  interval : String
deriving Repr, DecidableEq

/-- `p.unit_amount / 100 if p.unit_amount else 0` (src/app.py:62): Python
truthiness sends both a missing and a zero `unit_amount` to 0. -/
def priceAmount (p : RawPrice) : ℚ :=
  match p.unit_amount with
  | some m => if m = 0 then 0 else (m : ℚ) / 100
  | none => 0

/-- Placeholder used when the expanded product has no `name` attribute. -/
def unknownProduct : String := "Unknown Product"

/-- Tag for a recurring price type. -/
def recurringType : String := "recurring"

/-- One loop iteration of `get_active_products` (src/app.py:61-86): build the
label and the catalog entry for one raw price. -/
def normalizePrice (p : RawPrice) : String × CatalogEntry :=
  let amount := priceAmount p
  let currency := strUpper p.currency
  let product_name := match p.product_name with
    | some n => n
    | none => unknownProduct
  match p.recurring_interval with
  | some iv =>
    if p.type = recurringType then
      (product_name ++ " (" ++ floatStr amount ++ " " ++ currency ++ "/" ++ iv ++ ")",
       { id := p.id, amount := amount, currency := currency,
         mode := "subscription", interval := iv })
    else
      (product_name ++ " (" ++ floatStr amount ++ " " ++ currency ++ ")",
       { id := p.id, amount := amount, currency := currency,
         mode := "payment", interval := "one-time" })
  | none =>
    (product_name ++ " (" ++ floatStr amount ++ " " ++ currency ++ ")",
     { id := p.id, amount := amount, currency := currency,
       mode := "payment", interval := "one-time" })

/-- `get_active_products` on a successfully fetched price list: fold the loop
body over the prices, inserting each entry under its label with Python-dict
overwrite semantics. -/
def get_active_products (prices : List RawPrice) : List (String × CatalogEntry) :=
  prices.foldl (fun acc p => insertKV (normalizePrice p).1 (normalizePrice p).2 acc) []

/-! ### Remote Stripe state and `create_checkout_session` (src/app.py lines 92-131) -/

/-- A coupon record as created by `stripe.Coupon.create` at src/app.py:121-125.
The remote generates a fresh opaque id on every create call; ids are modelled
as the value of a strictly increasing counter. -/
structure Coupon where
  id : ℕ
  percent_off : ℕ
  duration : String
  name : String
deriving Repr, DecidableEq

/-- The keyword arguments passed to `stripe.checkout.Session.create` at
src/app.py:128, exactly the keys assembled in `session_args`. -/
structure SessionArgs where
  customer : String
  line_items : List (String × ℕ)
  mode : String
  success_url : String
  customer_update : List (String × String)
  metadata : List (String × String)
  subscription_data : Option (List (String × String))
  discounts : Option (List ℕ)
deriving Repr, DecidableEq

/-- One remote API call attempted during `create_checkout_session`. -/
inductive ApiCall where
  | couponCreate (percent_off : ℕ)
  | sessionCreate (args : SessionArgs)
deriving Repr, DecidableEq

/-- The remote processor's state: the fresh-id counter, the objects created
so far, the log of calls attempted, the URL a successful session create
returns, and injected exceptions for the two create calls (`some msg` means
the call raises with that message). -/
structure Remote where
  nextCouponId : ℕ
  coupons : List Coupon
  sessions : List SessionArgs
  calls : List ApiCall
  sessionUrl : String
  couponFail : Option String
  sessionFail : Option String
deriving Repr, DecidableEq

/-- Constant provenance tag injected at src/app.py:102. -/
def csmTag : String := "CSM App"

/-- Metadata key for the provenance tag. -/
def genByKey : String := "generated_by"

/-- `stripe.checkout.Session.create(**session_args)` (src/app.py:128): the
call is attempted (logged), then either raises the injected exception or
records the session and returns its URL. -/
def sessionCreate (st : Remote) (args : SessionArgs) : Except String String × Remote :=
  let st := { st with calls := st.calls ++ [ApiCall.sessionCreate args] }
  match st.sessionFail with
  | some e => (Except.error e, st)
  | none => (Except.ok st.sessionUrl, { st with sessions := st.sessions ++ [args] })

/-- `stripe.Coupon.create(...)` (src/app.py:121-125): the call is attempted
(logged), then either raises the injected exception or records a fresh coupon
and returns its id. -/
def couponCreate (st : Remote) (percent_off : ℕ) (duration name : String) :
    Except String ℕ × Remote :=
  let st := { st with calls := st.calls ++ [ApiCall.couponCreate percent_off] }
  match st.couponFail with
  | some e => (Except.error e, st)
  | none =>
    let cid := st.nextCouponId
    (Except.ok cid,
     { st with nextCouponId := st.nextCouponId + 1,
               coupons := st.coupons ++
                 [{ id := cid, percent_off := percent_off,
                    duration := duration, name := name }] })

/-- `create_checkout_session` (src/app.py:92-131).  The whole body sits in a
`try`: any raise from the coupon or session call lands in the `except` branch,
which returns the string `"Error: " + str(e)`.  On success it returns
`session.url`.  `metadata=None` defaults to an empty dict; the function then
mutates that dict with the provenance tag, and the same dict object is what
`subscription_data` aliases when the mode is `subscription`. -/
def create_checkout_session (st : Remote) (customer_id price_id mode : String)
    (discount_percent : ℕ) (metadataArg : Option (List (String × String))) :
    String × Remote :=
  let metadata := match metadataArg with
    | none => []
    | some m => m
  let metadata := insertKV genByKey csmTag metadata
  let session_args : SessionArgs :=
    { customer := customer_id,
      line_items := [(price_id, 1)],
      mode := mode,
      success_url := "https://example.com/success",
      customer_update := [("name", "auto"), ("address", "auto")],
      metadata := metadata,
      subscription_data := if mode = "subscription" then some metadata else none,
      discounts := none }
  if discount_percent > 0 then
    match couponCreate st discount_percent "once"
        (toString discount_percent ++ "% Off (CSM Generated)") with
    | (Except.error e, st) => ("Error: " ++ e, st)
    | (Except.ok cid, st) =>
      match sessionCreate st { session_args with discounts := some [cid] } with
      | (Except.error e, st) => ("Error: " ++ e, st)
      | (Except.ok url, st) => (url, st)
  else
    match sessionCreate st session_args with
    | (Except.error e, st) => ("Error: " ++ e, st)
    | (Except.ok url, st) => (url, st)

/-! ### Customer resolution (src/app.py lines 133-142, `get_or_create_customer`) -/

/-- A customer record held by the remote. -/
structure Customer where
  id : String
  email : String
  name : String
deriving Repr, DecidableEq

/-- Remote customer store: existing records in the order the list endpoint
returns them, a fresh-id counter for creates, and an injected-failure flag
standing for a raised exception on either remote call. -/
structure CustomerRemote where
  customers : List Customer
  nextId : ℕ
  failing : Bool
deriving Repr, DecidableEq

/-- `get_or_create_customer` (src/app.py:133-142): list by exact email with
limit 1 (the first matching record wins); if found return its id with `True`;
otherwise create `{email, name}` and return the new id with `False`; any
raised exception returns `(None, False)`. -/
def get_or_create_customer (st : CustomerRemote) (email nm : String) :
    (Option String × Bool) × CustomerRemote :=
  if st.failing then ((none, false), st)
  else
    match st.customers.find? (fun c => c.email == email) with
    | some c => ((some c.id, true), st)
    | none =>
      let newId := "cus_" ++ toString st.nextId
      ((some newId, false),
       { st with customers := st.customers ++ [{ id := newId, email := email, name := nm }],
                 nextId := st.nextId + 1 })

/-! ### The generate-link button handlers (src/app.py lines 179-196 and 221-248) -/

/-- Metadata key for the computed final price. -/
def amountPaidKey : String := "amount_paid"

/-- Metadata key for the billing frequency. -/
def payFreqKey : String := "payment_frequency"

/-- The metadata dict assembled at src/app.py:185-188 and 236-239:
`{"amount_paid": f"{final_price:.2f}", "payment_frequency": frequency}`. -/
def my_metadata (fp : ℚ) (frequency : String) : List (String × String) :=
  [(amountPaidKey, formatF2 fp), (payFreqKey, frequency)]

/-- What the handler shows for a returned link string. -/
inductive Outcome where
  | errorMsg (s : String)
  | showLink (s : String)
deriving Repr, DecidableEq

/-- Python substring test over character lists: does `pat` start `s`? -/
def seqStarts : List Char → List Char → Bool
  | [], _ => true
  | _ :: _, [] => false
  | a :: as, b :: bs => a == b && seqStarts as bs

/-- Python substring test over character lists: does `pat` occur in `s`? -/
def seqHas (pat : List Char) : List Char → Bool
  | [] => seqStarts pat []
  | c :: t => seqStarts pat (c :: t) || seqHas pat t

/-- Python `pat in s` on strings: substring containment. -/
def pyIn (pat s : String) : Bool := seqHas pat.toList s.toList

/-- Failure marker the handlers search for. -/
def errorMarker : String := "Error"

/-- The classification both button handlers apply to the returned link
(src/app.py:192 and 243): `if "Error" in link: st.error(link) else: show it`. -/
def handle_link (link : String) : Outcome :=
  if pyIn errorMarker link then Outcome.errorMsg link else Outcome.showLink link

/-! ### Concrete records used in examples and witnesses -/

/-- Recurring monthly "Pro Plan" at 2000 minor units USD (spec §8 example). -/
def proPlanMonthly : RawPrice :=
  { id := "price_m", unit_amount := some 2000, currency := "usd",
    product_name := some "Pro Plan", type := "recurring",
    recurring_interval := some "month" }

/-- One-time "Pro Plan" at 2000 minor units USD (spec §8 example). -/
def proPlanOneTime : RawPrice :=
  { id := "price_o", unit_amount := some 2000, currency := "usd",
    product_name := some "Pro Plan", type := "one_time",
    recurring_interval := none }

/-- A price whose expanded product has no `name` attribute. -/
def namelessPrice : RawPrice :=
  { id := "price_n", unit_amount := some 500, currency := "eur",
    product_name := none, type := "one_time", recurring_interval := none }

/-- A record marked `type = "recurring"` whose `recurring` field is null. -/
def recurringPriceNoData : RawPrice :=
  { id := "price_x", unit_amount := some 2000, currency := "usd",
    product_name := some "Pro Plan", type := "recurring",
    recurring_interval := none }

/-- A second recurring monthly "Pro Plan" price differing only in its id:
it produces the identical catalog label. -/
def proPlanMonthlyDup : RawPrice :=
  { id := "price_m2", unit_amount := some 2000, currency := "usd",
    product_name := some "Pro Plan", type := "recurring",
    recurring_interval := some "month" }

/-- The coupon record `stripe.Coupon.create` materializes during a run of
`create_checkout_session` started in remote state `st` with percent `p`. -/
def freshCoupon (st : Remote) (p : ℕ) : Coupon :=
  { id := st.nextCouponId, percent_off := p, duration := "once",
    name := toString p ++ "% Off (CSM Generated)" }

/-! ## Helper lemmas -/

lemma normalizePrice_amount (p : RawPrice) : (normalizePrice p).2.amount = priceAmount p := by
  rcases p with ⟨pid, ua, cur, pn, ty, ri⟩
  rcases ri with _ | iv
  · rfl
  · by_cases h : ty = recurringType <;> simp [normalizePrice, h]

lemma normalizePrice_mode (p : RawPrice) :
    (normalizePrice p).2.mode =
      if p.type = recurringType ∧ p.recurring_interval.isSome then "subscription"
      else "payment" := by
  rcases p with ⟨pid, ua, cur, pn, ty, ri⟩
  rcases ri with _ | iv
  · simp [normalizePrice]
  · by_cases h : ty = recurringType <;> simp [normalizePrice, h]

lemma roundHalfEven_int (z : ℤ) : roundHalfEven (z : ℚ) = z := by
  unfold roundHalfEven
  rw [Int.floor_intCast]
  norm_num

lemma formatF2_eval_int (q : ℚ) (n : ℕ) (h : q * 100 = n) : formatF2 q = render2 n := by
  unfold formatF2
  rw [h]
  have : ((n : ℚ)) = ((n : ℤ) : ℚ) := by norm_cast
  rw [this, roundHalfEven_int]
  simp

lemma roundHalfEven_half_odd (z : ℤ) (hz : z % 2 = 1) :
    roundHalfEven ((z : ℚ) + 1 / 2) = z + 1 := by
  have hf : ⌊(z : ℚ) + 1 / 2⌋ = z := by
    rw [Int.floor_eq_iff]
    constructor
    · norm_num
    · norm_num
  unfold roundHalfEven
  rw [hf]
  have h1 : ¬((z : ℚ) + 1 / 2 - z < 1 / 2) := by norm_num
  have h2 : ¬((1 : ℚ) / 2 < (z : ℚ) + 1 / 2 - z) := by norm_num
  rw [if_neg h1, if_neg h2, if_neg (by omega)]

lemma roundHalfEven_half_even (z : ℤ) (hz : z % 2 = 0) :
    roundHalfEven ((z : ℚ) + 1 / 2) = z := by
  have hf : ⌊(z : ℚ) + 1 / 2⌋ = z := by
    rw [Int.floor_eq_iff]
    constructor
    · norm_num
    · norm_num
  unfold roundHalfEven
  rw [hf]
  have h1 : ¬((z : ℚ) + 1 / 2 - z < 1 / 2) := by norm_num
  have h2 : ¬((1 : ℚ) / 2 < (z : ℚ) + 1 / 2 - z) := by norm_num
  rw [if_neg h1, if_neg h2, if_pos hz]

lemma floatStr_eval (q : ℚ) (n : ℕ) (h : q * 100 = n) : floatStr q = renderFloat n := by
  unfold floatStr
  rw [h]
  have : ((n : ℚ)) = ((n : ℤ) : ℚ) := by norm_cast
  rw [this, Int.floor_intCast]
  simp

/-! ## Claims -/

/-- C2: for every base amount `B` and percent in `[0,100]`, the computed
final price (src/app.py:171 and 215) equals the spec contract
`B * (1 - percent/100)`, and percent = 0 leaves the amount unchanged. -/
theorem c2_discount_contract (B : ℚ) (p : ℕ) (_hp : p ≤ 100) :
    final_price B p = apply_discount_spec B p ∧ final_price B 0 = B := by
  refine ⟨rfl, ?_⟩
  simp [final_price]

theorem c2_discount_contract_witness :
    (10 : ℕ) ≤ 100 ∧ (final_price 200 10 = apply_discount_spec 200 10 ∧ final_price 200 0 = 200) :=
  ⟨by norm_num, c2_discount_contract 200 10 (by norm_num)⟩

/-- C6: the derived catalog amount is `unit_amount / 100` exactly — an exact
whole number of hundredths, so 2 decimal places suffice (5000 ↦ 50.00) — and
0 when `unit_amount` is absent. -/
theorem c6_minor_unit_conversion :
    (∀ (p : RawPrice) (m : ℕ), p.unit_amount = some m →
      (normalizePrice p).2.amount = (m : ℚ) / 100 ∧ (normalizePrice p).2.amount * 100 = (m : ℚ))
    ∧ (∀ p : RawPrice, p.unit_amount = none → (normalizePrice p).2.amount = 0)
    ∧ (normalizePrice { id := "p5000", unit_amount := some 5000, currency := "usd",
                        product_name := some "X", type := "one_time",
                        recurring_interval := none }).2.amount = 50 := by
  refine ⟨?_, ?_, ?_⟩
  · intro p m h
    rw [normalizePrice_amount]
    rcases eq_or_ne m 0 with rfl | hm
    · simp [priceAmount, h]
    · constructor
      · simp [priceAmount, h, hm]
      · simp [priceAmount, h, hm]
  · intro p h
    simp [normalizePrice_amount, priceAmount, h]
  · rw [normalizePrice_amount]
    norm_num [priceAmount]

theorem c6_minor_unit_conversion_witness :
    (normalizePrice { id := "p1", unit_amount := some 250, currency := "usd",
                      product_name := some "X", type := "one_time",
                      recurring_interval := none }).2.amount = (250 : ℚ) / 100
    ∧ (normalizePrice { id := "p1", unit_amount := some 250, currency := "usd",
                        product_name := some "X", type := "one_time",
                        recurring_interval := none }).2.amount * 100 = (250 : ℚ) :=
  c6_minor_unit_conversion.1
    { id := "p1", unit_amount := some 250, currency := "usd",
      product_name := some "X", type := "one_time", recurring_interval := none }
    250 rfl

lemma formatF2_price_100_10 : formatF2 (final_price 100 10) = "90.00" := by
  rw [formatF2_eval_int (final_price 100 10) 9000 (by norm_num [final_price])]
  rfl

lemma formatF2_price_quarter_50 : formatF2 (final_price (1 / 4) 50) = "0.12" := by
  unfold formatF2
  have h : final_price (1 / 4) 50 * 100 = ((12 : ℤ) : ℚ) + 1 / 2 := by
    norm_num [final_price]
  rw [h, roundHalfEven_half_even 12 (by norm_num)]
  rfl

lemma formatHalfUp_price_quarter_50 : formatHalfUp2 (final_price (1 / 4) 50) = "0.13" := by
  unfold formatHalfUp2
  have h : final_price (1 / 4) 50 * 100 + 1 / 2 = ((13 : ℤ) : ℚ) := by
    norm_num [final_price]
  rw [h, Int.floor_intCast]
  rfl

/-- C7 counterexample: at base amount 0.25 and discount 50 % the computed
final price is the exact tie 0.125; the code's formatting (CPython `:.2f`,
round-half-even — 0.25, 0.5 and 0.125 are all exactly representable doubles,
so the float computation hits the tie exactly) records `"0.12"` in
`amount_paid`, while the half-up rounding the claim asserts yields `"0.13"`. -/
theorem c7_counterexample :
    getKV amountPaidKey (my_metadata (final_price (1 / 4) 50) "one-time") = some "0.12"
    ∧ formatHalfUp2 (final_price (1 / 4) 50) = "0.13"
    ∧ ("0.12" : String) ≠ "0.13" := by
  refine ⟨?_, formatHalfUp_price_quarter_50, by decide⟩
  unfold my_metadata
  rw [formatF2_price_quarter_50]
  simp [getKV]

/-- C7 amended: the metadata field `amount_paid` is the discounted amount
rendered to 2 decimal places by CPython's float formatting, which rounds
half-to-EVEN (banker's rounding), not half-up; base 100.00 with discount 10 %
still yields `"90.00"`, but the exact tie 0.125 yields `"0.12"`. -/
theorem c7_metadata_rounding (amount : ℚ) (d : ℕ) (freq : String) :
    getKV amountPaidKey (my_metadata (final_price amount d) freq)
      = some (formatF2 (final_price amount d))
    ∧ formatF2 (final_price 100 10) = "90.00"
    ∧ formatF2 (final_price (1 / 4) 50) = "0.12" := by
  refine ⟨?_, formatF2_price_100_10, formatF2_price_quarter_50⟩
  simp [getKV, my_metadata]

lemma normalizePrice_label_recurring (p : RawPrice) (iv : String)
    (h1 : p.type = recurringType) (h2 : p.recurring_interval = some iv) :
    (normalizePrice p).1 =
      (match p.product_name with | some n => n | none => unknownProduct)
        ++ " (" ++ floatStr (priceAmount p) ++ " " ++ strUpper p.currency
        ++ "/" ++ iv ++ ")" := by
  rcases p with ⟨pid, ua, cur, pn, ty, ri⟩
  subst h2
  simp only at h1
  subst h1
  simp [normalizePrice]

lemma normalizePrice_label_plain (p : RawPrice)
    (h : ¬(p.type = recurringType ∧ p.recurring_interval.isSome = true)) :
    (normalizePrice p).1 =
      (match p.product_name with | some n => n | none => unknownProduct)
        ++ " (" ++ floatStr (priceAmount p) ++ " " ++ strUpper p.currency ++ ")" := by
  rcases p with ⟨pid, ua, cur, pn, ty, ri⟩
  rcases ri with _ | iv
  · simp [normalizePrice]
  · have hty : ¬(ty = recurringType) := by
      intro hty
      exact h ⟨hty, by simp⟩
    simp [normalizePrice, hty]

lemma priceAmount_proPlanMonthly : priceAmount proPlanMonthly = (2000 : ℚ) / 100 := by
  norm_num [priceAmount, proPlanMonthly]

lemma floatStr_proPlan : floatStr (priceAmount proPlanMonthly) = "20.0" := by
  rw [priceAmount_proPlanMonthly, floatStr_eval ((2000 : ℚ) / 100) 2000 (by norm_num)]
  rfl

lemma label_proPlanMonthly : (normalizePrice proPlanMonthly).1 = "Pro Plan (20.0 USD/month)" := by
  rw [normalizePrice_label_recurring proPlanMonthly "month" rfl rfl, floatStr_proPlan]
  rfl

lemma label_proPlanOneTime : (normalizePrice proPlanOneTime).1 = "Pro Plan (20.0 USD)" := by
  rw [normalizePrice_label_plain proPlanOneTime (by simp [proPlanOneTime])]
  have h : floatStr (priceAmount proPlanOneTime) = "20.0" := by
    have hA : priceAmount proPlanOneTime = (2000 : ℚ) / 100 := by
      norm_num [priceAmount, proPlanOneTime]
    rw [hA, floatStr_eval ((2000 : ℚ) / 100) 2000 (by norm_num)]
    rfl
  rw [h]
  rfl

lemma label_namelessPrice : (normalizePrice namelessPrice).1 = "Unknown Product (5.0 EUR)" := by
  rw [normalizePrice_label_plain namelessPrice (by simp [namelessPrice])]
  have h : floatStr (priceAmount namelessPrice) = "5.0" := by
    have hA : priceAmount namelessPrice = (500 : ℚ) / 100 := by
      norm_num [priceAmount, namelessPrice]
    rw [hA, floatStr_eval ((500 : ℚ) / 100) 500 (by norm_num)]
    rfl
  rw [h]
  rfl

/-- C5 counterexample: on the record `recurringPriceNoData` — `type` is
`"recurring"` but the `recurring` field is null — the code's condition
`price_type == 'recurring' and p.recurring` (src/app.py:69) fails, so the
checkout mode is `"payment"` even though the price type is recurring,
refuting "mode is subscription exactly when the price type is recurring". -/
theorem c5_counterexample :
    recurringPriceNoData.type = "recurring"
    ∧ (normalizePrice recurringPriceNoData).2.mode = "payment"
    ∧ ¬((normalizePrice recurringPriceNoData).2.mode = "subscription") := by
  refine ⟨rfl, rfl, ?_⟩
  intro h
  simp [normalizePrice, recurringPriceNoData] at h

/-- C5 amended: the catalog label is
`"{product_name} ({amount} {currency}/interval)"` when the price type is
recurring AND recurring data is present, and
`"{product_name} ({amount} {currency})"` otherwise (a record marked recurring
without recurring data is treated as one-time); the currency is uppercased, a
missing product name yields the literal `"Unknown Product"`, and the mode is
`"subscription"` exactly when the type is recurring and recurring data is
present, `"payment"` otherwise. -/
theorem c5_catalog_label_and_mode :
    (∀ (p : RawPrice) (iv : String),
      p.type = recurringType → p.recurring_interval = some iv →
      (normalizePrice p).1 =
        (match p.product_name with | some n => n | none => unknownProduct)
          ++ " (" ++ floatStr (priceAmount p) ++ " " ++ strUpper p.currency
          ++ "/" ++ iv ++ ")"
      ∧ (normalizePrice p).2.mode = "subscription")
    ∧ (∀ p : RawPrice, ¬(p.type = recurringType ∧ p.recurring_interval.isSome = true) →
      (normalizePrice p).1 =
        (match p.product_name with | some n => n | none => unknownProduct)
          ++ " (" ++ floatStr (priceAmount p) ++ " " ++ strUpper p.currency ++ ")"
      ∧ (normalizePrice p).2.mode = "payment")
    ∧ (normalizePrice proPlanMonthly).1 = "Pro Plan (20.0 USD/month)"
    ∧ (normalizePrice proPlanOneTime).1 = "Pro Plan (20.0 USD)"
    ∧ (normalizePrice namelessPrice).1 = "Unknown Product (5.0 EUR)" := by
  refine ⟨?_, ?_, ?_, ?_, ?_⟩
  · intro p iv h1 h2
    refine ⟨normalizePrice_label_recurring p iv h1 h2, ?_⟩
    rw [normalizePrice_mode]
    simp [h1, h2]
  · intro p h
    refine ⟨normalizePrice_label_plain p h, ?_⟩
    rw [normalizePrice_mode, if_neg h]
  · exact label_proPlanMonthly
  · exact label_proPlanOneTime
  · exact label_namelessPrice

theorem c5_catalog_label_and_mode_witness :
    ((normalizePrice proPlanMonthly).1 =
      (match proPlanMonthly.product_name with | some n => n | none => unknownProduct)
        ++ " (" ++ floatStr (priceAmount proPlanMonthly) ++ " "
        ++ strUpper proPlanMonthly.currency ++ "/" ++ "month" ++ ")"
      ∧ (normalizePrice proPlanMonthly).2.mode = "subscription")
    ∧ ((normalizePrice proPlanOneTime).1 =
      (match proPlanOneTime.product_name with | some n => n | none => unknownProduct)
        ++ " (" ++ floatStr (priceAmount proPlanOneTime) ++ " "
        ++ strUpper proPlanOneTime.currency ++ ")"
      ∧ (normalizePrice proPlanOneTime).2.mode = "payment") :=
  ⟨c5_catalog_label_and_mode.1 proPlanMonthly "month" rfl rfl,
   c5_catalog_label_and_mode.2.1 proPlanOneTime (by simp [proPlanOneTime])⟩

/-! ### Last-write-wins in the catalog mapping (C9) -/

lemma getKV_insertKV_self {α : Type} (k : String) (v : α) (l : List (String × α)) :
    getKV k (insertKV k v l) = some v := by
  induction l with
  | nil => simp [insertKV, getKV]
  | cons kv rest ih =>
    obtain ⟨k', v'⟩ := kv
    by_cases h : k' = k
    · simp [insertKV, getKV, h]
    · simp [insertKV, getKV, h, ih]

lemma getKV_insertKV_ne {α : Type} (k k' : String) (v : α) (l : List (String × α))
    (h : k ≠ k') : getKV k' (insertKV k v l) = getKV k' l := by
  induction l with
  | nil => simp [insertKV, getKV, h]
  | cons kv rest ih =>
    obtain ⟨k'', v'⟩ := kv
    by_cases h2 : k'' = k
    · subst h2
      simp [insertKV, getKV, h]
    · by_cases h3 : k'' = k'
      · simp [insertKV, getKV, h2, h3, Ne.symm h]
      · simp [insertKV, getKV, h2, h3, ih]

lemma keys_insertKV {α : Type} (k : String) (v : α) (l : List (String × α)) :
    (insertKV k v l).map Prod.fst =
      if k ∈ l.map Prod.fst then l.map Prod.fst else l.map Prod.fst ++ [k] := by
  induction l with
  | nil => simp [insertKV]
  | cons kv rest ih =>
    obtain ⟨k', v'⟩ := kv
    by_cases h : k' = k
    · subst h
      simp [insertKV]
    · by_cases hm : k ∈ rest.map Prod.fst
      · simp [insertKV, h, hm, ih, Ne.symm h]
      · simp [insertKV, h, hm, ih, Ne.symm h]

lemma nodup_keys_insertKV {α : Type} (k : String) (v : α) (l : List (String × α))
    (h : (l.map Prod.fst).Nodup) : ((insertKV k v l).map Prod.fst).Nodup := by
  rw [keys_insertKV]
  by_cases hm : k ∈ l.map Prod.fst
  · simpa [hm] using h
  · simp only [hm, if_false]
    exact List.Nodup.append h (List.nodup_singleton k) (by simpa using hm)

lemma get_active_products_concat (ps : List RawPrice) (p : RawPrice) :
    get_active_products (ps ++ [p]) =
      insertKV (normalizePrice p).1 (normalizePrice p).2 (get_active_products ps) := by
  unfold get_active_products
  rw [List.foldl_append]
  rfl

lemma get_active_products_keys_nodup (ps : List RawPrice) :
    ((get_active_products ps).map Prod.fst).Nodup := by
  induction ps using List.reverseRecOn with
  | nil => simp [get_active_products]
  | append_singleton ps p ih =>
    rw [get_active_products_concat]
    exact nodup_keys_insertKV _ _ _ ih

lemma get_active_products_getKV (ps : List RawPrice) (l : String) :
    getKV l (get_active_products ps) =
      ((ps.reverse.find? fun p => (normalizePrice p).1 == l).map
        fun p => (normalizePrice p).2) := by
  induction ps using List.reverseRecOn with
  | nil => simp [get_active_products, getKV]
  | append_singleton ps p ih =>
    rw [get_active_products_concat, List.reverse_append]
    by_cases h : (normalizePrice p).1 = l
    · subst h
      simp [getKV_insertKV_self, List.find?]
    · have hb : ((normalizePrice p).1 == l) = false := by
        simpa using h
      simp only [List.reverse_singleton, List.singleton_append, List.find?, hb]
      rw [getKV_insertKV_ne _ _ _ _ h]
      exact ih

lemma label_proPlanMonthlyDup :
    (normalizePrice proPlanMonthlyDup).1 = "Pro Plan (20.0 USD/month)" := by
  rw [normalizePrice_label_recurring proPlanMonthlyDup "month" rfl rfl]
  have h : floatStr (priceAmount proPlanMonthlyDup) = "20.0" := by
    have hA : priceAmount proPlanMonthlyDup = (2000 : ℚ) / 100 := by
      norm_num [priceAmount, proPlanMonthlyDup]
    rw [hA, floatStr_eval ((2000 : ℚ) / 100) 2000 (by norm_num)]
    rfl
  rw [h]
  rfl

/-- C9: the catalog mapping has pairwise-distinct labels (exactly one entry
per label), and the entry found under a label is the one built from the LAST
price in fetch order producing that label (the later price overwrites the
earlier); concretely, two prices differing only in id collapse to a single
entry holding the later price's data. -/
theorem c9_last_write_wins (ps : List RawPrice) :
    ((get_active_products ps).map Prod.fst).Nodup
    ∧ (∀ l, getKV l (get_active_products ps) =
        ((ps.reverse.find? fun p => (normalizePrice p).1 == l).map
          fun p => (normalizePrice p).2))
    ∧ get_active_products [proPlanMonthly, proPlanMonthlyDup]
        = [("Pro Plan (20.0 USD/month)", (normalizePrice proPlanMonthlyDup).2)] := by
  refine ⟨get_active_products_keys_nodup ps, fun l => get_active_products_getKV ps l, ?_⟩
  show insertKV (normalizePrice proPlanMonthlyDup).1 (normalizePrice proPlanMonthlyDup).2
      (insertKV (normalizePrice proPlanMonthly).1 (normalizePrice proPlanMonthly).2 []) = _
  rw [label_proPlanMonthly, label_proPlanMonthlyDup]
  simp [insertKV]

/-! ### Customer resolution (C3) -/

/-- C3: `get_or_create_customer` returns the first customer whose email
matches exactly (limit-1 lookup) with `was_existing = true`; when none
matches it creates one and returns the fresh id with `was_existing = false`;
a remote failure returns no usable id (`none`, distinguishable from the
created case whose id is `some _`); and two calls with the same email under
a non-failing remote return the same id, the second with
`was_existing = true`. -/
theorem c3_find_or_create_customer :
    (∀ (st : CustomerRemote) (e n : String) (c : Customer),
      st.failing = false →
      st.customers.find? (fun x => x.email == e) = some c →
      get_or_create_customer st e n = ((some c.id, true), st))
    ∧ (∀ (st : CustomerRemote) (e n : String),
      st.failing = false →
      st.customers.find? (fun x => x.email == e) = none →
      (get_or_create_customer st e n).1 = (some ("cus_" ++ toString st.nextId), false))
    ∧ (∀ (st : CustomerRemote) (e n : String),
      st.failing = true → (get_or_create_customer st e n).1 = (none, false))
    ∧ (∀ (st : CustomerRemote) (e n n' : String),
      st.failing = false →
      (get_or_create_customer st e n).1.1.isSome = true
      ∧ (get_or_create_customer (get_or_create_customer st e n).2 e n').1.1
          = (get_or_create_customer st e n).1.1
      ∧ (get_or_create_customer (get_or_create_customer st e n).2 e n').1.2 = true) := by
  refine ⟨?_, ?_, ?_, ?_⟩
  · intro st e n c hb hf
    simp [get_or_create_customer, hb, hf]
  · intro st e n hb hf
    simp [get_or_create_customer, hb, hf]
  · intro st e n hb
    simp [get_or_create_customer, hb]
  · intro st e n n' hb
    rcases hf : st.customers.find? (fun x => x.email == e) with _ | c
    · simp [get_or_create_customer, hb, hf, List.find?_append]
    · simp [get_or_create_customer, hb, hf]

theorem c3_find_or_create_customer_witness :
    (get_or_create_customer { customers := [], nextId := 0, failing := false }
        "a@b.com" "Ada").1.1.isSome = true
    ∧ (get_or_create_customer
        (get_or_create_customer { customers := [], nextId := 0, failing := false }
          "a@b.com" "Ada").2 "a@b.com" "Bo").1.1
        = (get_or_create_customer { customers := [], nextId := 0, failing := false }
            "a@b.com" "Ada").1.1
    ∧ (get_or_create_customer
        (get_or_create_customer { customers := [], nextId := 0, failing := false }
          "a@b.com" "Ada").2 "a@b.com" "Bo").1.2 = true :=
  c3_find_or_create_customer.2.2.2
    { customers := [], nextId := 0, failing := false } "a@b.com" "Ada" "Bo" rfl

/-! ### Checkout session creation (C1, C4, C8, C10) -/

lemma create_cs_couponFail (st : Remote) (c pr m : String) (p : ℕ)
    (md : Option (List (String × String))) :
    (create_checkout_session st c pr m p md).2.couponFail = st.couponFail := by
  by_cases hp : p > 0 <;>
    rcases hcf : st.couponFail with _ | e <;>
    rcases hsf : st.sessionFail with _ | e2 <;>
    simp [create_checkout_session, couponCreate, sessionCreate, hp, hcf, hsf]

lemma create_cs_sessionFail (st : Remote) (c pr m : String) (p : ℕ)
    (md : Option (List (String × String))) :
    (create_checkout_session st c pr m p md).2.sessionFail = st.sessionFail := by
  by_cases hp : p > 0 <;>
    rcases hcf : st.couponFail with _ | e <;>
    rcases hsf : st.sessionFail with _ | e2 <;>
    simp [create_checkout_session, couponCreate, sessionCreate, hp, hcf, hsf]

lemma create_cs_coupons (st : Remote) (c pr m : String) (p : ℕ)
    (md : Option (List (String × String))) (hcf : st.couponFail = none) :
    (create_checkout_session st c pr m p md).2.coupons
      = st.coupons ++ (if p > 0 then [freshCoupon st p] else []) := by
  by_cases hp : p > 0 <;>
    rcases hsf : st.sessionFail with _ | e <;>
    simp [create_checkout_session, couponCreate, sessionCreate, freshCoupon, hp, hcf, hsf]

lemma create_cs_nextCouponId (st : Remote) (c pr m : String) (p : ℕ)
    (md : Option (List (String × String))) (hcf : st.couponFail = none) :
    (create_checkout_session st c pr m p md).2.nextCouponId
      = st.nextCouponId + (if p > 0 then 1 else 0) := by
  by_cases hp : p > 0 <;>
    rcases hsf : st.sessionFail with _ | e <;>
    simp [create_checkout_session, couponCreate, sessionCreate, hp, hcf, hsf]

lemma create_cs_success_url (st : Remote) (c pr m : String) (p : ℕ)
    (md : Option (List (String × String)))
    (hs : st.sessionFail = none) (hc : st.couponFail = none) :
    (create_checkout_session st c pr m p md).1 = st.sessionUrl := by
  by_cases hp : p > 0 <;>
    simp [create_checkout_session, couponCreate, sessionCreate, hp, hc, hs]

/-- C1: when the discount percent is positive and the remote coupon creation
raises, `create_checkout_session` lands in the `except` branch: the result is
the terminal failure string `"Error: " + message` (no URL), no session is
recorded, and the only remote call attempted after the start of the run is
the coupon creation — the session-create call is never reached. -/
theorem c1_coupon_failure_atomicity (st : Remote) (c pr m : String) (p : ℕ)
    (md : Option (List (String × String))) (e : String)
    (hp : 0 < p) (hf : st.couponFail = some e) :
    (create_checkout_session st c pr m p md).1 = "Error: " ++ e
    ∧ (create_checkout_session st c pr m p md).2.sessions = st.sessions
    ∧ (create_checkout_session st c pr m p md).2.calls
        = st.calls ++ [ApiCall.couponCreate p]
    ∧ (∀ args : SessionArgs,
        ApiCall.sessionCreate args ∈ (create_checkout_session st c pr m p md).2.calls →
        ApiCall.sessionCreate args ∈ st.calls) := by
  have h3 : (create_checkout_session st c pr m p md).2.calls
      = st.calls ++ [ApiCall.couponCreate p] := by
    simp [create_checkout_session, couponCreate, hp, hf]
  refine ⟨?_, ?_, h3, ?_⟩
  · simp [create_checkout_session, couponCreate, hp, hf]
  · simp [create_checkout_session, couponCreate, hp, hf]
  · intro args hm
    rw [h3] at hm
    rcases List.mem_append.1 hm with h | h
    · exact h
    · simp at h

theorem c1_coupon_failure_atomicity_witness :
    0 < 10
    ∧ ({ nextCouponId := 0, coupons := [], sessions := [], calls := [],
         sessionUrl := "https://pay.example/ok", couponFail := some "rate limited",
         sessionFail := none } : Remote).couponFail = some "rate limited"
    ∧ ((create_checkout_session
        { nextCouponId := 0, coupons := [], sessions := [], calls := [],
          sessionUrl := "https://pay.example/ok", couponFail := some "rate limited",
          sessionFail := none } "cus_1" "price_1" "payment" 10
        (some [(amountPaidKey, "90.00"), (payFreqKey, "one-time")])).1
        = "Error: " ++ "rate limited"
      ∧ (create_checkout_session
        { nextCouponId := 0, coupons := [], sessions := [], calls := [],
          sessionUrl := "https://pay.example/ok", couponFail := some "rate limited",
          sessionFail := none } "cus_1" "price_1" "payment" 10
        (some [(amountPaidKey, "90.00"), (payFreqKey, "one-time")])).2.sessions
        = ({ nextCouponId := 0, coupons := [], sessions := [], calls := [],
             sessionUrl := "https://pay.example/ok", couponFail := some "rate limited",
             sessionFail := none } : Remote).sessions) :=
  ⟨by norm_num, rfl,
   (c1_coupon_failure_atomicity
      { nextCouponId := 0, coupons := [], sessions := [], calls := [],
        sessionUrl := "https://pay.example/ok", couponFail := some "rate limited",
        sessionFail := none } "cus_1" "price_1" "payment" 10
      (some [(amountPaidKey, "90.00"), (payFreqKey, "one-time")]) "rate limited"
      (by norm_num) rfl).1,
   (c1_coupon_failure_atomicity
      { nextCouponId := 0, coupons := [], sessions := [], calls := [],
        sessionUrl := "https://pay.example/ok", couponFail := some "rate limited",
        sessionFail := none } "cus_1" "price_1" "payment" 10
      (some [(amountPaidKey, "90.00"), (payFreqKey, "one-time")]) "rate limited"
      (by norm_num) rfl).2.1⟩

lemma insertKV_handler_metadata (a f : String) :
    insertKV genByKey csmTag [(amountPaidKey, a), (payFreqKey, f)]
      = [(amountPaidKey, a), (payFreqKey, f), (genByKey, csmTag)] := by
  simp only [insertKV]
  rw [if_neg (by decide), if_neg (by decide)]

/-- C4: under a non-failing remote and the handler-shaped metadata
(`amount_paid`, `payment_frequency`), the one session recorded carries
exactly: the resolved customer id, `line_items = [(price_id, 1)]`, the given
mode, the fixed success URL, `customer_update = {name: auto, address: auto}`,
metadata = the two handler keys plus the constant `generated_by = "CSM App"`
tag, `discounts = [coupon id of the coupon just created]` exactly when the
percent is positive, and `subscription_data` mirroring the session metadata
exactly when the mode is `"subscription"`. -/
theorem c4_session_arguments (st : Remote) (c pr m : String) (p : ℕ) (a f : String)
    (hc : 0 < p → st.couponFail = none) (hs : st.sessionFail = none) :
    (create_checkout_session st c pr m p
        (some [(amountPaidKey, a), (payFreqKey, f)])).2.sessions
      = st.sessions ++
        [{ customer := c,
           line_items := [(pr, 1)],
           mode := m,
           success_url := "https://example.com/success",
           customer_update := [("name", "auto"), ("address", "auto")],
           metadata := [(amountPaidKey, a), (payFreqKey, f), (genByKey, csmTag)],
           subscription_data :=
             if m = "subscription"
             then some [(amountPaidKey, a), (payFreqKey, f), (genByKey, csmTag)]
             else none,
           discounts := if 0 < p then some [st.nextCouponId] else none }] := by
  by_cases hp : 0 < p
  · have hcf := hc hp
    simp [create_checkout_session, couponCreate, sessionCreate,
      insertKV_handler_metadata, hp, hcf, hs]
  · simp [create_checkout_session, sessionCreate, insertKV_handler_metadata, hp, hs]

theorem c4_session_arguments_witness :
    (create_checkout_session
        { nextCouponId := 3, coupons := [], sessions := [], calls := [],
          sessionUrl := "https://pay.example/s2", couponFail := none,
          sessionFail := none } "cus_9" "price_9" "subscription" 10
        (some [(amountPaidKey, "18.00"), (payFreqKey, "month")])).2.sessions
      = ({ nextCouponId := 3, coupons := [], sessions := [], calls := [],
           sessionUrl := "https://pay.example/s2", couponFail := none,
           sessionFail := none } : Remote).sessions ++
        [{ customer := "cus_9",
           line_items := [("price_9", 1)],
           mode := "subscription",
           success_url := "https://example.com/success",
           customer_update := [("name", "auto"), ("address", "auto")],
           metadata := [(amountPaidKey, "18.00"), (payFreqKey, "month"),
                        (genByKey, csmTag)],
           subscription_data :=
             if "subscription" = "subscription"
             then some [(amountPaidKey, "18.00"), (payFreqKey, "month"),
                        (genByKey, csmTag)]
             else none,
           discounts := if 0 < 10 then
             some [({ nextCouponId := 3, coupons := [], sessions := [], calls := [],
                      sessionUrl := "https://pay.example/s2", couponFail := none,
                      sessionFail := none } : Remote).nextCouponId]
             else none }] :=
  c4_session_arguments
    { nextCouponId := 3, coupons := [], sessions := [], calls := [],
      sessionUrl := "https://pay.example/s2", couponFail := none,
      sessionFail := none } "cus_9" "price_9" "subscription" 10 "18.00" "month"
    (fun _ => rfl) rfl

lemma seqStarts_self_append (l r : List Char) : seqStarts l (l ++ r) = true := by
  induction l with
  | nil => rfl
  | cons c t ih => simp [seqStarts, ih]

lemma seqHas_of_starts (pat s : List Char) (h : seqStarts pat s = true) :
    seqHas pat s = true := by
  cases s with
  | nil => simpa [seqHas] using h
  | cons c t => simp [seqHas, h]

lemma pyIn_self_append (a b : String) : pyIn a (a ++ b) = true := by
  unfold pyIn
  have h : (a ++ b).toList = a.toList ++ b.toList := by
    simp [String.toList]
  rw [h]
  exact seqHas_of_starts _ _ (seqStarts_self_append _ _)

/-- C8: under a non-failing coupon endpoint, a run of
`create_checkout_session` creates a coupon exactly when the percent is
positive; the coupon created is single-use (`duration = "once"`) and its name
contains the percent; and a second run in the resulting state creates a
SECOND coupon under the next counter value — two generations with identical
percent never share a coupon id. -/
theorem c8_coupon_freshness (st : Remote) (c pr m : String) (p : ℕ)
    (md : Option (List (String × String))) (hcf : st.couponFail = none) :
    ((create_checkout_session st c pr m p md).2.coupons
        = st.coupons ++ (if p > 0 then [freshCoupon st p] else []))
    ∧ (freshCoupon st p).duration = "once"
    ∧ (freshCoupon st p).name = toString p ++ "% Off (CSM Generated)"
    ∧ pyIn (toString p) (freshCoupon st p).name = true
    ∧ (0 < p → ∀ (c' pr' m' : String) (md' : Option (List (String × String))),
        (create_checkout_session (create_checkout_session st c pr m p md).2
            c' pr' m' p md').2.coupons
          = st.coupons ++ [freshCoupon st p]
              ++ [freshCoupon (create_checkout_session st c pr m p md).2 p]
        ∧ (freshCoupon (create_checkout_session st c pr m p md).2 p).id
            = st.nextCouponId + 1
        ∧ (freshCoupon (create_checkout_session st c pr m p md).2 p).id
            ≠ (freshCoupon st p).id) := by
  refine ⟨create_cs_coupons st c pr m p md hcf, rfl, rfl,
    pyIn_self_append (toString p) "% Off (CSM Generated)", ?_⟩
  intro hp c' pr' m' md'
  have hcf1 : (create_checkout_session st c pr m p md).2.couponFail = none := by
    rw [create_cs_couponFail]
    exact hcf
  have hid : (create_checkout_session st c pr m p md).2.nextCouponId
      = st.nextCouponId + 1 := by
    rw [create_cs_nextCouponId st c pr m p md hcf, if_pos hp]
  refine ⟨?_, ?_, ?_⟩
  · rw [create_cs_coupons _ c' pr' m' p md' hcf1,
      create_cs_coupons st c pr m p md hcf, if_pos hp, if_pos hp]
  · simp [freshCoupon, hid]
  · simp [freshCoupon, hid]

theorem c8_coupon_freshness_witness :
    ((create_checkout_session
        { nextCouponId := 7, coupons := [], sessions := [], calls := [],
          sessionUrl := "https://pay.example/s1", couponFail := none,
          sessionFail := none } "cus_1" "price_1" "payment" 10 none).2.coupons
      = ({ nextCouponId := 7, coupons := [], sessions := [], calls := [],
           sessionUrl := "https://pay.example/s1", couponFail := none,
           sessionFail := none } : Remote).coupons ++
          (if 10 > 0 then
            [freshCoupon
              { nextCouponId := 7, coupons := [], sessions := [], calls := [],
                sessionUrl := "https://pay.example/s1", couponFail := none,
                sessionFail := none } 10]
           else []))
    ∧ (freshCoupon
        { nextCouponId := 7, coupons := [], sessions := [], calls := [],
          sessionUrl := "https://pay.example/s1", couponFail := none,
          sessionFail := none } 10).duration = "once"
    ∧ pyIn (toString 10)
        (freshCoupon
          { nextCouponId := 7, coupons := [], sessions := [], calls := [],
            sessionUrl := "https://pay.example/s1", couponFail := none,
            sessionFail := none } 10).name = true
    ∧ (freshCoupon
        (create_checkout_session
          { nextCouponId := 7, coupons := [], sessions := [], calls := [],
            sessionUrl := "https://pay.example/s1", couponFail := none,
            sessionFail := none } "cus_1" "price_1" "payment" 10 none).2 10).id
        ≠ (freshCoupon
            { nextCouponId := 7, coupons := [], sessions := [], calls := [],
              sessionUrl := "https://pay.example/s1", couponFail := none,
              sessionFail := none } 10).id := by
  have h := c8_coupon_freshness
    { nextCouponId := 7, coupons := [], sessions := [], calls := [],
      sessionUrl := "https://pay.example/s1", couponFail := none,
      sessionFail := none } "cus_1" "price_1" "payment" 10 none rfl
  exact ⟨h.1, h.2.1, h.2.2.2.1,
    (h.2.2.2.2 (by norm_num) "cus_2" "price_2" "payment" none).2.2⟩

/-- C10: `create_checkout_session` signals failure by returning
`"Error: " + message` in place of a URL; both button handlers classify the
returned string as a failure exactly when `"Error"` occurs anywhere in it;
hence a successfully created session whose URL happens to contain `"Error"`
is reported as a failure and its link is never displayed. -/
theorem c10_error_substring_classification :
    (∀ (st : Remote) (c pr m : String) (p : ℕ)
        (md : Option (List (String × String))) (e : String),
      st.sessionFail = some e → st.couponFail = none →
      (create_checkout_session st c pr m p md).1 = "Error: " ++ e)
    ∧ (∀ link : String,
        handle_link link = Outcome.errorMsg link ↔ pyIn errorMarker link = true)
    ∧ (∀ (st : Remote) (c pr m : String) (p : ℕ)
        (md : Option (List (String × String))),
      st.sessionFail = none → st.couponFail = none →
      pyIn errorMarker st.sessionUrl = true →
      (create_checkout_session st c pr m p md).1 = st.sessionUrl
      ∧ handle_link (create_checkout_session st c pr m p md).1
          = Outcome.errorMsg st.sessionUrl
      ∧ (∀ s : String,
          handle_link (create_checkout_session st c pr m p md).1
            ≠ Outcome.showLink s)) := by
  refine ⟨?_, ?_, ?_⟩
  · intro st c pr m p md e hs hc
    by_cases hp : p > 0 <;>
      simp [create_checkout_session, couponCreate, sessionCreate, hp, hc, hs]
  · intro link
    by_cases h : pyIn errorMarker link = true <;> simp [handle_link, h]
  · intro st c pr m p md hs hc hurl
    have hu := create_cs_success_url st c pr m p md hs hc
    rw [hu]
    refine ⟨rfl, ?_, ?_⟩
    · simp [handle_link, hurl]
    · intro s
      simp [handle_link, hurl]

theorem c10_error_substring_classification_witness :
    pyIn errorMarker "https://pay.example/ErrorPage/s3" = true
    ∧ ((create_checkout_session
        { nextCouponId := 0, coupons := [], sessions := [], calls := [],
          sessionUrl := "https://pay.example/ErrorPage/s3", couponFail := none,
          sessionFail := none } "cus_1" "price_1" "payment" 0 none).1
        = ({ nextCouponId := 0, coupons := [], sessions := [], calls := [],
             sessionUrl := "https://pay.example/ErrorPage/s3", couponFail := none,
             sessionFail := none } : Remote).sessionUrl
      ∧ handle_link (create_checkout_session
          { nextCouponId := 0, coupons := [], sessions := [], calls := [],
            sessionUrl := "https://pay.example/ErrorPage/s3", couponFail := none,
            sessionFail := none } "cus_1" "price_1" "payment" 0 none).1
          = Outcome.errorMsg "https://pay.example/ErrorPage/s3") := by
  have h := c10_error_substring_classification.2.2
    { nextCouponId := 0, coupons := [], sessions := [], calls := [],
      sessionUrl := "https://pay.example/ErrorPage/s3", couponFail := none,
      sessionFail := none } "cus_1" "price_1" "payment" 0 none rfl rfl (by decide)
  exact ⟨by decide, h.1, h.2.1⟩

end StripeLinkGen
